import Mathlib

/-
  Shallow embedding of the trip dispatch and lifecycle engine of the
  Links ride-hailing platform, as written in the repository source
  (src/DATABASE_DESIGN_GUIDE.md: the SQL schema, the PostGIS/plpgsql
  functions and the TypeScript example-usage functions).

  Conventions of the embedding:
  * timestamps are natural numbers (epoch milliseconds); times of day are
    natural numbers (minutes since midnight, as used by the SQL TIME type);
  * SQL DECIMAL money, distances and ratings are rationals;
  * each Supabase call in the TypeScript is one atomic store operation;
    a TypeScript function made of several awaited calls is embedded both
    as one sequential function (its serial behaviour) and, where a claim
    is about concurrency, as a micro-step machine whose steps are exactly
    those store calls;
  * great-circle distance (PostGIS ST_Distance / calculate_distance) is
    abstracted as a distance-function parameter `d : Point -> Point -> Rat`;
    the queries under study only filter and order by it.
-/

/-- SQL enum `user_role` (schema line 1909). -/
inductive UserRole
  | rider
  | driver
  | admin
deriving DecidableEq

/-- SQL enum `verification_status` (schema line 1910). -/
inductive VerificationStatus
  | pending
  | approved
  | rejected
  | suspended
deriving DecidableEq

/-- SQL enum `subscription_status` (schema line 1911). -/
inductive SubscriptionStatus
  | active
  | expired
  | cancelled
  | trial
deriving DecidableEq

/-- SQL enum `trip_status` (schema line 1912). The DDL enum is
`('requested','accepted','picked_up','completed','cancelled')`; the label
`refunded` is NOT in the DDL, yet `process_trip_refund` writes
`status = 'refunded'`. We include the extra label so that write can be
modelled; the DDL omission is recorded with the refund claims. -/
inductive TripStatus
  | requested
  | accepted
  | pickedUp
  | completed
  | cancelled
  | refunded
deriving DecidableEq

/-- SQL enum `trip_type` (schema line 1913). -/
inductive TripType
  | airport
  | shortDrop
  | market
  | other
deriving DecidableEq

/-- A geographic point (latitude, longitude), the content of the PostGIS
GEOGRAPHY(POINT) columns. -/
structure Point where
  lat : ℚ
  lon : ℚ
deriving DecidableEq

/-- Row of `rider_profiles` (schema lines 1954-1975), restricted to the
columns the embedded operations read or write. -/
structure RiderProfile where
  id : Nat
  userId : Nat
  subscriptionStatus : SubscriptionStatus
  subscriptionEndDate : Nat
  totalTrips : Nat
  ratingAverage : ℚ
deriving DecidableEq

/-- Row of `driver_profiles` (schema lines 1984-2021), restricted to the
columns the embedded operations read or write. -/
structure DriverProfile where
  id : Nat
  userId : Nat
  verificationStatus : VerificationStatus
  subscriptionStatus : SubscriptionStatus
  subscriptionEndDate : Nat
  isOnline : Bool
  isAvailable : Bool
  currentLocation : Point
  locationUpdatedAt : Nat
  totalTrips : Nat
  ratingAverage : ℚ
deriving DecidableEq

/-- Row of `trip_requests` (schema lines 2070-2102). -/
structure TripRequest where
  id : Nat
  riderId : Nat
  pickup : Point
  pickupAddress : String
  destination : Point
  destinationAddress : String
  tripType : TripType
  estimatedDistanceKm : ℚ
  estimatedFare : ℚ
  status : TripStatus
  expiresAt : Nat
  createdAt : Nat
deriving DecidableEq

/-- Row of `trips` (schema lines 2113-2172), restricted to the columns the
embedded operations read or write. -/
structure Trip where
  id : Nat
  riderId : Nat
  driverId : Nat
  vehicleId : Nat
  pickup : Point
  pickupAddress : String
  destination : Point
  destinationAddress : String
  tripType : TripType
  status : TripStatus
  estimatedDistanceKm : ℚ
  actualDistanceKm : Option ℚ
  estimatedFare : ℚ
  actualFare : Option ℚ
  requestedAt : Nat
  acceptedAt : Option Nat
  pickedUpAt : Option Nat
  completedAt : Option Nat
  cancelledAt : Option Nat
  cancellationReason : Option String
deriving DecidableEq

/-- Row of `location_history` (schema lines 820-836). -/
structure LocationSample where
  tripId : Nat
  driverId : Nat
  latitude : ℚ
  longitude : ℚ
  speedKmh : ℚ
  recordedAt : Nat
deriving DecidableEq

/-- Row of `notifications`, restricted to the columns `acceptRequest`
writes. -/
structure AppNotification where
  userId : Nat
  title : String
  body : String
  notificationType : String
deriving DecidableEq

/-- The mutable store: one list per table touched by the embedded
operations, plus the id supply for inserted trips and requests. -/
structure DB where
  riders : List RiderProfile
  drivers : List DriverProfile
  requests : List TripRequest
  trips : List Trip
  locationHistory : List LocationSample
  notifications : List AppNotification
  nextTripId : Nat
  nextRequestId : Nat
deriving DecidableEq

/-- The distinct failure outcomes of the embedded operations.
`requestNotAvailable` is the thrown string literal of `acceptRequest`
(src line 1025); `subscriptionRequired` the thrown string literal of
`requestTrip` (src line 960); `notFound` a failed `.single()` lookup;
`invalidTransition` exists only for the spec-modelled `cancelTrip`. -/
inductive DispatchError
  | requestNotAvailable
  | subscriptionRequired
  | notFound
  | invalidTransition
deriving DecidableEq

/-- Whether an `Except` result is a success. -/
def isOk : Except DispatchError α → Bool
  | .ok _ => true
  | .error _ => false

/-- `system_config` values consumed by the embedded logic, with the
defaults inserted by the schema (src lines 2352-2358). -/
structure SystemConfig where
  tripExpiryMinutes : Nat
  nightStart : Nat
  nightEnd : Nat
  maxSearchRadiusKm : ℚ
  baseFare : ℚ
  perKmRate : ℚ

/-- The default `system_config` rows (src lines 2352-2358): expiry 10
minutes, night window 18:00-06:00, max radius 15 km, base fare 500,
per-km rate 150. -/
def defaultConfig : SystemConfig :=
  { tripExpiryMinutes := 10
    nightStart := 18 * 60
    nightEnd := 6 * 60
    maxSearchRadiusKm := 15
    baseFare := 500
    perKmRate := 150 }

/-- SQL `is_subscription_active` (src lines 2397-2419): look the profile up
by user id in the table selected by the role, then test
`status IN ('active','trial') AND end_date > NOW()`. A missing row (or the
role `admin`) yields false. -/
def is_subscription_active (db : DB) (userId : Nat) (role : UserRole) (now : Nat) : Bool :=
  match role with
  | .rider =>
    match db.riders.find? (fun r => decide (r.userId = userId)) with
    | none => false
    | some r =>
      decide ((r.subscriptionStatus = .active ∨ r.subscriptionStatus = .trial)
        ∧ now < r.subscriptionEndDate)
  | .driver =>
    match db.drivers.find? (fun d => decide (d.userId = userId)) with
    | none => false
    | some d =>
      decide ((d.subscriptionStatus = .active ∨ d.subscriptionStatus = .trial)
        ∧ now < d.subscriptionEndDate)
  | .admin => false

/-- SQL `is_night_mode` (src lines 2435-2455), with the configured start
and end of the night window and the current time passed explicitly, all as
minutes since midnight. Overnight ranges (start > end) are true when the
time is at or after the start or strictly before the end; otherwise the
test is start <= time < end. -/
def is_night_mode (startTime endTime currentTime : Nat) : Bool :=
  if startTime > endTime then
    decide (currentTime ≥ startTime) || decide (currentTime < endTime)
  else
    decide (currentTime ≥ startTime) && decide (currentTime < endTime)

/-- Modelled from the spec: `calculateFare` is called by `requestTrip`
(src line 965) but its body appears nowhere under src; the spec defines it
as `fare = baseFare + perKmRate*distanceKm` using configured rates. -/
def calculateFare (cfg : SystemConfig) (distanceKm : ℚ) : ℚ :=
  cfg.baseFare + cfg.perKmRate * distanceKm

/-- Modelled from the spec: `FareCalculator.Estimate(distanceKm, tripType,
atTime) -> (fare, isNightTrip)`. The fare component is `calculateFare`
(absent from src, modelled from the spec formula); the night flag is the
src SQL `is_night_mode` applied to the configured window and `atTime`.
The trip type does not enter either component. -/
def Estimate (cfg : SystemConfig) (distanceKm : ℚ) (_tripType : TripType) (atTime : Nat) :
    ℚ × Bool :=
  (calculateFare cfg distanceKm, is_night_mode cfg.nightStart cfg.nightEnd atTime)

/-- The night window exactly as the spec words it: the window is
`[start,end)`, and `start > end` means it wraps midnight as
`[start,24:00) ∪ [0,end)`. Written from the spec text (not the code) for
comparison with `is_night_mode`. -/
def specNightWindow (startTime endTime t : Nat) : Prop :=
  (startTime > endTime ∧ ((startTime ≤ t ∧ t < 24 * 60) ∨ t < endTime))
  ∨ (startTime ≤ endTime ∧ (startTime ≤ t ∧ t < endTime))

instance (s e t : Nat) : Decidable (specNightWindow s e t) :=
  inferInstanceAs (Decidable (_ ∨ _))

/-- Ordering used by `find_nearby_drivers`: ORDER BY distance_km ASC. -/
def distLE (a b : DriverProfile × ℚ) : Prop := a.2 ≤ b.2

instance : DecidableRel distLE := fun a b => inferInstanceAs (Decidable (a.2 ≤ b.2))

instance : IsTotal (DriverProfile × ℚ) distLE := ⟨fun a b => le_total a.2 b.2⟩

instance : IsTrans (DriverProfile × ℚ) distLE := ⟨fun _ _ _ h h' => le_trans h h'⟩

/-- SQL `find_nearby_drivers` (src lines 1437-1476): keep the driver rows
with `is_online AND is_available AND verification_status = 'approved' AND
subscription_status IN ('active','trial')` that lie within `radius_km` of
the query point, pair each with its distance, ORDER BY distance ascending,
LIMIT 20. The users/vehicles JOINs of the SQL only add display columns
(name, vehicle label) and are dropped; `d` abstracts the PostGIS
great-circle distance in kilometers. There is no end-date condition and no
tie-break beyond the distance key in the source query. -/
def find_nearby_drivers (d : Point → Point → ℚ) (db : DB)
    (userLatitude userLongitude : ℚ) (radiusKm : ℚ) : List (DriverProfile × ℚ) :=
  let rows := db.drivers.filterMap (fun dp =>
    let distanceKm := d dp.currentLocation ⟨userLatitude, userLongitude⟩
    if decide (dp.isOnline = true ∧ dp.isAvailable = true
        ∧ dp.verificationStatus = .approved
        ∧ (dp.subscriptionStatus = .active ∨ dp.subscriptionStatus = .trial)
        ∧ distanceKm ≤ radiusKm)
    then some (dp, distanceKm) else none)
  (List.insertionSort distLE rows).take 20

/-- The lookup `acceptRequest` opens with (src lines 1017-1022):
select the `trip_requests` row with the given id and
`status = 'requested'`. No expiry condition is part of the lookup. -/
def findRequest (db : DB) (requestId : Nat) : Option TripRequest :=
  db.requests.find? (fun r => decide (r.id = requestId ∧ r.status = .requested))

/-- Lookup of a rider profile row by its primary key. -/
def findRiderById (db : DB) (riderId : Nat) : Option RiderProfile :=
  db.riders.find? (fun r => decide (r.id = riderId))

/-- Lookup of a trip row by its primary key. -/
def findTrip (db : DB) (tripId : Nat) : Option Trip :=
  db.trips.find? (fun t => decide (t.id = tripId))

/-- The `trips` INSERT of `acceptRequest` (src lines 1029-1049): copy the
request fields, set `status = 'accepted'`, `requested_at` from the request
creation time and `accepted_at = now`. -/
def mkTripFromRequest (request : TripRequest) (driverId vehicleId tripId now : Nat) : Trip :=
  { id := tripId
    riderId := request.riderId
    driverId := driverId
    vehicleId := vehicleId
    pickup := request.pickup
    pickupAddress := request.pickupAddress
    destination := request.destination
    destinationAddress := request.destinationAddress
    tripType := request.tripType
    status := .accepted
    estimatedDistanceKm := request.estimatedDistanceKm
    actualDistanceKm := none
    estimatedFare := request.estimatedFare
    actualFare := none
    requestedAt := request.createdAt
    acceptedAt := some now
    pickedUpAt := none
    completedAt := none
    cancelledAt := none
    cancellationReason := none }

/-- TypeScript `acceptRequest` (src lines 1015-1082), run serially: five
store calls in order. (1) read the request by (id, status='requested');
missing -> throw Request-no-longer-available, nothing written. (2) insert
the new trip. (3) delete the request rows with that id. (4) set the
accepting driver `is_available = false`. (5) look the rider profile up and
insert the Driver-Assigned notification; a missing rider fails the
`.single()` AFTER the earlier writes are already applied (there is no
transaction around the five calls). The store state is returned in either
outcome. -/
def acceptRequest (db : DB) (requestId driverId vehicleId : Nat) (now : Nat) :
    DB × Except DispatchError Trip :=
  match findRequest db requestId with
  | none => (db, .error .requestNotAvailable)
  | some request =>
    let trip := mkTripFromRequest request driverId vehicleId db.nextTripId now
    let db1 : DB := { db with trips := db.trips ++ [trip], nextTripId := db.nextTripId + 1 }
    let db2 : DB := { db1 with requests := db1.requests.filter (fun r => decide (r.id ≠ requestId)) }
    let db3 : DB := { db2 with drivers := db2.drivers.map (fun dd =>
      if dd.id = driverId then { dd with isAvailable := false } else dd) }
    match findRiderById db3 request.riderId with
    | none => (db3, .error .notFound)
    | some rp =>
      ({ db3 with notifications := db3.notifications ++
          [{ userId := rp.userId
             title := "Driver Assigned!"
             body := "Your driver is on the way"
             notificationType := "trip_accepted" }] }, .ok trip)

/-- TypeScript `startTrip` (src lines 1087-1095): one unconditional UPDATE
of the row with the given id to `status = 'picked_up'`,
`picked_up_at = now`. There is no condition on the prior status and no
error path. -/
def startTrip (db : DB) (tripId : Nat) (now : Nat) : DB :=
  { db with trips := db.trips.map (fun t =>
      if t.id = tripId then { t with status := .pickedUp, pickedUpAt := some now } else t) }

/-- TypeScript `completeTrip` (src lines 1100-1127): UPDATE the trip to
`status = 'completed'` with the actuals (unconditionally on status), then
increment the rider and driver trip counters and set the trip driver
`is_available = true`. The `.single()` after the UPDATE fails when no row
has the id, in which case nothing was updated. The bodies of the
`increment_rider_trips` / `increment_driver_trips` RPCs are not under src;
their trip-count increment is modelled from the spec sentence that
`Complete` triggers rider/driver trip-count updates. -/
def completeTrip (db : DB) (tripId : Nat) (actualDistance actualFare : ℚ) (now : Nat) :
    DB × Except DispatchError Unit :=
  match findTrip db tripId with
  | none => (db, .error .notFound)
  | some trip =>
    let db1 : DB := { db with trips := db.trips.map (fun t =>
      if t.id = tripId then
        { t with status := .completed, completedAt := some now,
                 actualDistanceKm := some actualDistance, actualFare := some actualFare }
      else t) }
    let db2 : DB := { db1 with riders := db1.riders.map (fun r =>
      if r.id = trip.riderId then { r with totalTrips := r.totalTrips + 1 } else r) }
    let db3 : DB := { db2 with drivers := db2.drivers.map (fun dd =>
      if dd.id = trip.driverId then { dd with totalTrips := dd.totalTrips + 1 } else dd) }
    let db4 : DB := { db3 with drivers := db3.drivers.map (fun dd =>
      if dd.id = trip.driverId then { dd with isAvailable := true } else dd) }
    (db4, .ok ())

/-- SQL `process_trip_refund` (src lines 1792-1812): UPDATE the trip row to
`status = 'refunded'` and deduct the refund amount from `actual_fare`
(NULL stays NULL), insert the offsetting payment row (out of the modelled
tables), and return success. The UPDATE has no condition on the prior
status, and an UPDATE matching no row still returns success. -/
def process_trip_refund (db : DB) (tripId : Nat) (amount : ℚ) : DB × Bool :=
  ({ db with trips := db.trips.map (fun t =>
      if t.id = tripId then
        { t with status := .refunded, actualFare := t.actualFare.map (fun f => f - amount) }
      else t) }, true)

/-- TypeScript `recordDriverLocation` (src lines 843-870): append a
`location_history` row stamped with the arrival time `now`, then
unconditionally overwrite the driver current location and
`location_updated_at`. No sample timestamp is taken and no comparison with
the stored `location_updated_at` is made. -/
def recordDriverLocation (db : DB) (tripId driverId : Nat)
    (latitude longitude speed : ℚ) (now : Nat) : DB :=
  let db1 : DB := { db with locationHistory := db.locationHistory ++
    [{ tripId := tripId, driverId := driverId, latitude := latitude,
       longitude := longitude, speedKmh := speed, recordedAt := now }] }
  { db1 with drivers := db1.drivers.map (fun dd =>
      if dd.id = driverId then
        { dd with currentLocation := { lat := latitude, lon := longitude },
                  locationUpdatedAt := now }
      else dd) }

/-- TypeScript `requestTrip` (src lines 948-989): read the rider profile,
reject unless `subscription_status === 'active'` with an end date after
now (note: the inline check does NOT accept `'trial'`), then insert the
request with the estimate and `expires_at = now + 10 minutes`. `d`
abstracts `calculateDistance`; the fare comes from the spec-modelled
`calculateFare`. The inserted row carries the hardcoded trip type
`'short_drop'` and the default status `'requested'` of the DDL. -/
def requestTrip (d : Point → Point → ℚ) (cfg : SystemConfig) (db : DB) (riderId : Nat)
    (pickup : Point) (pickupAddress : String) (destination : Point)
    (destinationAddress : String) (now : Nat) : DB × Except DispatchError TripRequest :=
  match findRiderById db riderId with
  | none => (db, .error .notFound)
  | some rider =>
    if decide (rider.subscriptionStatus = .active ∧ now < rider.subscriptionEndDate) then
      let distance := d pickup destination
      let request : TripRequest :=
        { id := db.nextRequestId
          riderId := riderId
          pickup := pickup
          pickupAddress := pickupAddress
          destination := destination
          destinationAddress := destinationAddress
          tripType := .shortDrop
          estimatedDistanceKm := distance
          estimatedFare := calculateFare cfg distance
          status := .requested
          expiresAt := now + 10 * 60 * 1000
          createdAt := now }
      ({ db with requests := db.requests ++ [request],
                 nextRequestId := db.nextRequestId + 1 }, .ok request)
    else (db, .error .subscriptionRequired)

/-- The expiry sweep (src lines 805-811): delete every request with
`expires_at < now` and `status = 'requested'`. -/
def expireStaleRequests (db : DB) (now : Nat) : DB :=
  { db with requests := db.requests.filter (fun r =>
      !(decide (r.expiresAt < now) && decide (r.status = .requested))) }

/-- Modelled from the spec: `Cancel(tripId, reason)` of the TripLedger.
No cancellation operation exists anywhere under src (the schema has the
`cancelled` status and the `cancelled_at` / `cancellation_reason` columns,
but no function writes them); the spec says Cancel is legal from
`accepted` or `picked_up`, fails with `InvalidTransition` otherwise, sets
`cancelled_at` and the reason, and releases the driver back to the pool. -/
def cancelTrip (db : DB) (tripId : Nat) (reason : String) (now : Nat) :
    DB × Except DispatchError Unit :=
  match findTrip db tripId with
  | none => (db, .error .notFound)
  | some trip =>
    if trip.status = .accepted ∨ trip.status = .pickedUp then
      let db1 : DB := { db with trips := db.trips.map (fun t =>
        if t.id = tripId then
          { t with status := .cancelled, cancelledAt := some now,
                   cancellationReason := some reason }
        else t) }
      let db2 : DB := { db1 with drivers := db1.drivers.map (fun dd =>
        if dd.id = trip.driverId then { dd with isAvailable := true } else dd) }
      (db2, .ok ())
    else (db, .error .invalidTransition)

/-- One in-flight `acceptRequest` call, for the interleaved (concurrent)
semantics: its arguments, its program counter over the store calls of the
TypeScript body, the request row its opening read returned, the id of the
trip it inserted, and whether it ended by throwing. -/
structure AcceptCall where
  requestId : Nat
  driverId : Nat
  vehicleId : Nat
  now : Nat
  pc : Nat
  snapshot : Option TripRequest
  tripId : Option Nat
  failed : Bool
deriving DecidableEq

/-- A fresh `acceptRequest` call about to execute its first store call. -/
def newAcceptCall (requestId driverId vehicleId now : Nat) : AcceptCall :=
  { requestId := requestId, driverId := driverId, vehicleId := vehicleId,
    now := now, pc := 0, snapshot := none, tripId := none, failed := false }

/-- One store call of `acceptRequest` (src lines 1015-1082), the
micro-step of the interleaved semantics. Step 0 is the conditional read
(id, status='requested'); step 1 the `trips` INSERT; step 2 the
`trip_requests` DELETE by id; step 3 the driver `is_available=false`
UPDATE, after which the call has returned its trip. The notification
insert is dropped here (it touches no table another call reads). Each
step is atomic; between two steps of one call, steps of other calls may
run - exactly the interleaving the five separate awaited Supabase calls
of the TypeScript allow. -/
def acceptStep (db : DB) (p : AcceptCall) : DB × AcceptCall :=
  match p.pc with
  | 0 =>
    match findRequest db p.requestId with
    | none => (db, { p with pc := 4, failed := true })
    | some r => (db, { p with pc := 1, snapshot := some r })
  | 1 =>
    match p.snapshot with
    | none => (db, { p with pc := 4, failed := true })
    | some request =>
      let trip := mkTripFromRequest request p.driverId p.vehicleId db.nextTripId p.now
      ({ db with trips := db.trips ++ [trip], nextTripId := db.nextTripId + 1 },
       { p with pc := 2, tripId := some db.nextTripId })
  | 2 =>
    ({ db with requests := db.requests.filter (fun r => decide (r.id ≠ p.requestId)) },
     { p with pc := 3 })
  | 3 =>
    ({ db with drivers := db.drivers.map (fun dd =>
        if dd.id = p.driverId then { dd with isAvailable := false } else dd) },
     { p with pc := 4 })
  | _ => (db, p)

/-- Run a set of concurrent `acceptRequest` calls under an explicit
schedule: each entry of the schedule names the call whose next store call
runs. Out-of-range entries are skipped. -/
def runAccepts : DB → List AcceptCall → List Nat → DB × List AcceptCall
  | db, ps, [] => (db, ps)
  | db, ps, i :: rest =>
    match ps[i]? with
    | none => runAccepts db ps rest
    | some p =>
      let (db', p') := acceptStep db p
      runAccepts db' (ps.set i p') rest

/-- A finished call succeeded when it ran to the end without throwing. -/
def acceptSucceeded (p : AcceptCall) : Bool :=
  decide (p.pc = 4) && !p.failed

/-- Serial executions of `acceptRequest` on one request id: each listed
call (driverId, vehicleId, now) runs to completion before the next
starts; the returned booleans record which calls succeeded. -/
def acceptSerial : DB → Nat → List (Nat × Nat × Nat) → DB × List Bool
  | db, _, [] => (db, [])
  | db, requestId, c :: rest =>
    let step := acceptRequest db requestId c.1 c.2.1 c.2.2
    let next := acceptSerial step.1 requestId rest
    (next.1, isOk step.2 :: next.2)

/-- The states reachable from `db0` by any sequence of the embedded
operations, each run serially (the granularity the driver-availability
claim is about). `cancelTrip` is the spec-modelled cancellation; every
other operation is translated from src. -/
inductive Reachable (db0 : DB) : DB → Prop
  | init : Reachable db0 db0
  | accept {db} (requestId driverId vehicleId now : Nat) :
      Reachable db0 db → Reachable db0 (acceptRequest db requestId driverId vehicleId now).1
  | start {db} (tripId now : Nat) :
      Reachable db0 db → Reachable db0 (startTrip db tripId now)
  | complete {db} (tripId : Nat) (actualDistance actualFare : ℚ) (now : Nat) :
      Reachable db0 db → Reachable db0 (completeTrip db tripId actualDistance actualFare now).1
  | refund {db} (tripId : Nat) (amount : ℚ) :
      Reachable db0 db → Reachable db0 (process_trip_refund db tripId amount).1
  | record {db} (tripId driverId : Nat) (latitude longitude speed : ℚ) (now : Nat) :
      Reachable db0 db →
      Reachable db0 (recordDriverLocation db tripId driverId latitude longitude speed now)
  | request {db} (d : Point → Point → ℚ) (cfg : SystemConfig) (riderId : Nat)
      (pickup : Point) (pickupAddress : String) (destination : Point)
      (destinationAddress : String) (now : Nat) :
      Reachable db0 db →
      Reachable db0
        (requestTrip d cfg db riderId pickup pickupAddress destination destinationAddress now).1
  | sweep {db} (now : Nat) :
      Reachable db0 db → Reachable db0 (expireStaleRequests db now)
  | cancel {db} (tripId : Nat) (reason : String) (now : Nat) :
      Reachable db0 db → Reachable db0 (cancelTrip db tripId reason now).1

/-! Concrete store states used to instantiate the theorems below. -/

/-- A rider profile with a current paid subscription. -/
def rider1 : RiderProfile :=
  { id := 1, userId := 501, subscriptionStatus := .active,
    subscriptionEndDate := 10000000, totalTrips := 0, ratingAverage := 5 }

/-- A rider profile on an unexpired trial. -/
def riderTrial : RiderProfile :=
  { id := 2, userId := 502, subscriptionStatus := .trial,
    subscriptionEndDate := 2000, totalTrips := 0, ratingAverage := 5 }

/-- An eligible driver, online and available. -/
def driverA : DriverProfile :=
  { id := 4, userId := 504, verificationStatus := .approved,
    subscriptionStatus := .active, subscriptionEndDate := 10000000,
    isOnline := true, isAvailable := true, currentLocation := { lat := 0, lon := 0 },
    locationUpdatedAt := 0, totalTrips := 0, ratingAverage := 5 }

/-- A second eligible driver, online and available. -/
def driverB : DriverProfile :=
  { id := 5, userId := 505, verificationStatus := .approved,
    subscriptionStatus := .active, subscriptionEndDate := 10000000,
    isOnline := true, isAvailable := true, currentLocation := { lat := 0, lon := 0 },
    locationUpdatedAt := 0, totalTrips := 0, ratingAverage := 5 }

/-- An open request of `rider1`, far from expiry. -/
def request10 : TripRequest :=
  { id := 10, riderId := 1, pickup := { lat := 0, lon := 0 }, pickupAddress := "A",
    destination := { lat := 1, lon := 1 }, destinationAddress := "B",
    tripType := .shortDrop, estimatedDistanceKm := 2, estimatedFare := 800,
    status := .requested, expiresAt := 10000000, createdAt := 0 }

/-- A second open request of `rider1`, far from expiry. -/
def request11 : TripRequest :=
  { id := 11, riderId := 1, pickup := { lat := 0, lon := 0 }, pickupAddress := "A",
    destination := { lat := 1, lon := 1 }, destinationAddress := "B",
    tripType := .shortDrop, estimatedDistanceKm := 2, estimatedFare := 800,
    status := .requested, expiresAt := 10000000, createdAt := 0 }

/-- A request of `rider1` whose `expires_at` (100) is already in the past at
the times the theorems use (1000), but which no sweep has deleted yet. -/
def requestExpired : TripRequest :=
  { id := 12, riderId := 1, pickup := { lat := 0, lon := 0 }, pickupAddress := "A",
    destination := { lat := 1, lon := 1 }, destinationAddress := "B",
    tripType := .shortDrop, estimatedDistanceKm := 2, estimatedFare := 800,
    status := .requested, expiresAt := 100, createdAt := 0 }

/-- The main concrete store: one subscribed rider, two eligible drivers,
two live requests and one expired-but-unswept request. -/
def dbMain : DB :=
  { riders := [rider1], drivers := [driverA, driverB],
    requests := [request10, request11, requestExpired],
    trips := [], locationHistory := [], notifications := [],
    nextTripId := 1, nextRequestId := 50 }

/-- Store containing only the trial rider. -/
def dbTrial : DB :=
  { riders := [riderTrial], drivers := [], requests := [], trips := [],
    locationHistory := [], notifications := [], nextTripId := 1, nextRequestId := 50 }

/-- A trip that has already completed, with an actual fare of 2000. -/
def tripCompleted : Trip :=
  { id := 5, riderId := 1, driverId := 4, vehicleId := 3,
    pickup := { lat := 0, lon := 0 }, pickupAddress := "A",
    destination := { lat := 1, lon := 1 }, destinationAddress := "B",
    tripType := .shortDrop, status := .completed,
    estimatedDistanceKm := 2, actualDistanceKm := some 2,
    estimatedFare := 800, actualFare := some 2000,
    requestedAt := 0, acceptedAt := some 1, pickedUpAt := some 2,
    completedAt := some 3, cancelledAt := none, cancellationReason := none }

/-- Store containing only the completed trip. -/
def dbTrip : DB :=
  { riders := [rider1], drivers := [driverA], requests := [],
    trips := [tripCompleted], locationHistory := [], notifications := [],
    nextTripId := 6, nextRequestId := 50 }

/-- A driver passing every column `find_nearby_drivers` tests, whose
`subscription_end_date` (0) lies in the past at every positive time. -/
def driverExpiredSub : DriverProfile :=
  { id := 7, userId := 507, verificationStatus := .approved,
    subscriptionStatus := .active, subscriptionEndDate := 0,
    isOnline := true, isAvailable := true, currentLocation := { lat := 0, lon := 0 },
    locationUpdatedAt := 0, totalTrips := 0, ratingAverage := 5 }

/-- Store containing only the driver with the lapsed end date. -/
def dbExpiredSub : DB :=
  { riders := [], drivers := [driverExpiredSub], requests := [], trips := [],
    locationHistory := [], notifications := [], nextTripId := 1, nextRequestId := 1 }

/-- Eligible driver with the lower rating, listed first in the table. -/
def driverLowRating : DriverProfile :=
  { id := 1, userId := 511, verificationStatus := .approved,
    subscriptionStatus := .active, subscriptionEndDate := 10000000,
    isOnline := true, isAvailable := true, currentLocation := { lat := 0, lon := 0 },
    locationUpdatedAt := 0, totalTrips := 0, ratingAverage := 3 }

/-- Eligible driver with the higher rating, at the same point as
`driverLowRating`, listed second in the table. -/
def driverHighRating : DriverProfile :=
  { id := 2, userId := 512, verificationStatus := .approved,
    subscriptionStatus := .active, subscriptionEndDate := 10000000,
    isOnline := true, isAvailable := true, currentLocation := { lat := 0, lon := 0 },
    locationUpdatedAt := 0, totalTrips := 0, ratingAverage := 5 }

/-- Store with the two equidistant drivers of the tie-order theorems. -/
def dbTie : DB :=
  { riders := [], drivers := [driverLowRating, driverHighRating], requests := [],
    trips := [], locationHistory := [], notifications := [],
    nextTripId := 1, nextRequestId := 1 }

/-- Three eligible drivers, distinguished by latitude 1, 2 and 3, used for
the geo-ordering example. -/
def driverGeo (ident : Nat) (latitude : ℚ) : DriverProfile :=
  { id := ident, userId := 520 + ident, verificationStatus := .approved,
    subscriptionStatus := .active, subscriptionEndDate := 10000000,
    isOnline := true, isAvailable := true, currentLocation := { lat := latitude, lon := 0 },
    locationUpdatedAt := 0, totalTrips := 0, ratingAverage := 5 }

/-- Store with drivers at great-circle distances 1.2 km, 0.5 km and 3.0 km
from the query point (under `dGeoExample`). -/
def dbGeoExample : DB :=
  { riders := [], drivers := [driverGeo 1 1, driverGeo 2 2, driverGeo 3 3],
    requests := [], trips := [], locationHistory := [], notifications := [],
    nextTripId := 1, nextRequestId := 1 }

/-- Distance function placing the three `dbGeoExample` drivers at 1.2 km,
0.5 km and 3.0 km from every query point. -/
def dGeoExample : Point → Point → ℚ := fun p _ =>
  if p.lat = 1 then 6/5 else if p.lat = 2 then 1/2 else 3

/-- A driver whose position the location theorems overwrite. -/
def driverLoc : DriverProfile :=
  { id := 3, userId := 503, verificationStatus := .approved,
    subscriptionStatus := .active, subscriptionEndDate := 10000000,
    isOnline := true, isAvailable := false, currentLocation := { lat := 0, lon := 0 },
    locationUpdatedAt := 0, totalTrips := 0, ratingAverage := 5 }

/-- Store containing only `driverLoc`. -/
def dbLoc : DB :=
  { riders := [], drivers := [driverLoc], requests := [], trips := [],
    locationHistory := [], notifications := [], nextTripId := 1, nextRequestId := 1 }

/-- `dbMain` after driver 4 accepted request 10 (trip 1 created). -/
def dbAfterFirstAccept : DB := (acceptRequest dbMain 10 4 60 1000).1

/-- `dbAfterFirstAccept` after driver 4 also accepted request 11 (trip 2
created; nothing stops a busy driver from accepting again). -/
def dbAfterSecondAccept : DB := (acceptRequest dbAfterFirstAccept 11 4 61 1001).1

/-- `dbAfterSecondAccept` after trip 1 completed: driver 4 is released
while trip 2 is still in a non-terminal state. -/
def dbAfterComplete : DB := (completeTrip dbAfterSecondAccept 1 3 950 1200).1

/-- The two concurrent `acceptRequest` calls of the interleaving theorem,
both racing on request 10. -/
def racingCalls : List AcceptCall := [newAcceptCall 10 4 70 1000, newAcceptCall 10 5 71 1000]

/-! General lemmas about the embedded operations. -/

/-- When the opening read finds no claimable row, `acceptRequest` throws
and writes nothing. -/
theorem acceptRequest_not_found (db : DB) (requestId driverId vehicleId now : Nat)
    (h : findRequest db requestId = none) :
    acceptRequest db requestId driverId vehicleId now
      = (db, .error .requestNotAvailable) := by
  unfold acceptRequest
  rw [h]

/-- When the opening read finds a claimable row and the rider profile
exists, `acceptRequest` returns the created trip. -/
theorem acceptRequest_isOk (db : DB) (requestId driverId vehicleId now : Nat)
    (req : TripRequest) (rp : RiderProfile)
    (h1 : findRequest db requestId = some req)
    (h2 : findRiderById db req.riderId = some rp) :
    isOk (acceptRequest db requestId driverId vehicleId now).2 = true := by
  unfold acceptRequest
  rw [h1]
  dsimp only
  rw [show findRiderById
        { db with
          trips := db.trips ++ [mkTripFromRequest req driverId vehicleId db.nextTripId now],
          nextTripId := db.nextTripId + 1,
          requests := db.requests.filter (fun r => decide (r.id ≠ requestId)),
          drivers := db.drivers.map (fun dd =>
            if dd.id = driverId then { dd with isAvailable := false } else dd) }
        req.riderId = some rp from h2]
  rfl

/-- Whenever the opening read finds a claimable row, the request rows with
that id are deleted, whether or not the rider lookup at the end succeeds. -/
theorem acceptRequest_request_gone (db : DB) (requestId driverId vehicleId now : Nat)
    (req : TripRequest) (h1 : findRequest db requestId = some req) :
    findRequest (acceptRequest db requestId driverId vehicleId now).1 requestId = none := by
  unfold acceptRequest
  rw [h1]
  dsimp only
  have base : ∀ dbx : DB, dbx.requests = db.requests.filter (fun r => decide (r.id ≠ requestId)) →
      findRequest dbx requestId = none := by
    intro dbx hx
    unfold findRequest
    rw [hx, List.find?_eq_none]
    intro r hr
    have hmem := List.of_mem_filter hr
    simp only [decide_eq_true_eq] at hmem ⊢
    intro hcontra
    exact hmem hcontra.1
  cases hrp : findRiderById
      { db with
        trips := db.trips ++ [mkTripFromRequest req driverId vehicleId db.nextTripId now],
        nextTripId := db.nextTripId + 1,
        requests := db.requests.filter (fun r => decide (r.id ≠ requestId)),
        drivers := db.drivers.map (fun dd =>
          if dd.id = driverId then { dd with isAvailable := false } else dd) }
      req.riderId with
  | none => exact base _ rfl
  | some rp => exact base _ rfl

/-- A successful `acceptRequest` adds exactly one trip row. -/
theorem acceptRequest_trips_length (db : DB) (requestId driverId vehicleId now : Nat)
    (req : TripRequest) (h1 : findRequest db requestId = some req) :
    (acceptRequest db requestId driverId vehicleId now).1.trips.length
      = db.trips.length + 1 := by
  unfold acceptRequest
  rw [h1]
  dsimp only
  cases hrp : findRiderById
      { db with
        trips := db.trips ++ [mkTripFromRequest req driverId vehicleId db.nextTripId now],
        nextTripId := db.nextTripId + 1,
        requests := db.requests.filter (fun r => decide (r.id ≠ requestId)),
        drivers := db.drivers.map (fun dd =>
          if dd.id = driverId then { dd with isAvailable := false } else dd) }
      req.riderId with
  | none => simp
  | some rp => simp

/-- Once no claimable row with the id is left, every further serial
`acceptRequest` call fails and leaves the store unchanged. -/
theorem acceptSerial_all_fail (db : DB) (requestId : Nat) (calls : List (Nat × Nat × Nat))
    (h : findRequest db requestId = none) :
    (acceptSerial db requestId calls).2.count true = 0 := by
  induction calls generalizing db with
  | nil => rfl
  | cons c rest ih =>
    unfold acceptSerial
    rw [acceptRequest_not_found db requestId c.1 c.2.1 c.2.2 h]
    dsimp only
    simp only [isOk, List.count_cons, ih db h]
    rfl

/-- C1 (amended): when N >= 1 `acceptRequest` calls on one request id run
SERIALLY (each call finishes its five store calls before the next starts),
exactly one of them succeeds: the first call claims the request and
deletes its row, and every later call fails at the opening read (with the
single generic Request-no-longer-available error the code throws; the
code has no distinct RequestAlreadyClaimed / RequestExpired outcomes).
The exactly-once guarantee does NOT extend to interleaved executions,
per the counterexample theorem. -/
theorem acceptRequest_serial_exactly_one_success
    (db : DB) (requestId : Nat) (c : Nat × Nat × Nat) (rest : List (Nat × Nat × Nat))
    (req : TripRequest) (rp : RiderProfile)
    (h1 : findRequest db requestId = some req)
    (h2 : findRiderById db req.riderId = some rp) :
    (acceptSerial db requestId (c :: rest)).2.count true = 1 := by
  unfold acceptSerial
  dsimp only
  rw [acceptRequest_isOk db requestId c.1 c.2.1 c.2.2 req rp h1 h2]
  have hgone := acceptRequest_request_gone db requestId c.1 c.2.1 c.2.2 req h1
  simp only [List.count_cons, acceptSerial_all_fail _ _ rest hgone]
  rfl

/-- C1 witness: two serial calls race on request 10 of the concrete store;
exactly one succeeds. -/
theorem acceptRequest_serial_exactly_one_success_witness :
    (acceptSerial dbMain 10 [(4, 60, 1000), (5, 61, 1001)]).2.count true = 1 :=
  acceptRequest_serial_exactly_one_success dbMain 10 (4, 60, 1000) [(5, 61, 1001)]
    request10 rider1 rfl rfl

/-- C1 counterexample: the claim fails on the code as written. The two
concurrent `acceptRequest` calls of `racingCalls` both race on request 10;
under the interleaving read0, read1, insert0, insert1, delete0, delete1,
update0, update1 (legal because the TypeScript performs its five store
calls as separate awaited operations with no transaction or conditional
delete), BOTH calls return a newly created trip and two trips are created
for the one request - the number of successes is 2, not 1. -/
theorem acceptRequest_interleaved_two_successes :
    ((runAccepts dbMain racingCalls [0, 1, 0, 1, 0, 1, 0, 1]).2.map acceptSucceeded
      = [true, true])
    ∧ (runAccepts dbMain racingCalls [0, 1, 0, 1, 0, 1, 0, 1]).1.trips.length = 2 :=
  ⟨rfl, rfl⟩

/-- C3 counterexample: the claim fails on the code as written. Request 12
has `expires_at = 100`, already in the past at time 1000, and no sweep has
deleted it; the claim says the accept path must fail with RequestExpired
and create no trip, but `acceptRequest` (whose read is keyed only on
(id, status='requested'), with no expiry condition) succeeds and creates a
trip. -/
theorem acceptRequest_expired_request_claimable_cex :
    requestExpired.expiresAt < 1000
    ∧ isOk (acceptRequest dbMain 12 4 60 1000).2 = true
    ∧ (acceptRequest dbMain 12 4 60 1000).1.trips.length = 1 :=
  ⟨by decide, rfl, rfl⟩

/-- C3 (amended): the accept path is keyed on (id, status='requested')
only - the expiry conjunct of the claim does not exist. An expired but
unswept request is still claimable (the call succeeds and creates a trip);
only once the sweep `expireStaleRequests` has deleted every expired row
with the id does the accept path fail, and then with the generic
Request-no-longer-available error, not a distinct RequestExpired. -/
theorem acceptRequest_ignores_expiry
    (db : DB) (requestId driverId vehicleId now now2 d2 v2 : Nat)
    (req : TripRequest) (rp : RiderProfile)
    (h1 : findRequest db requestId = some req)
    (h2 : findRiderById db req.riderId = some rp)
    (_hexp : req.expiresAt < now)
    (hall : ∀ r ∈ db.requests, r.id = requestId →
      r.expiresAt < now ∧ r.status = TripStatus.requested) :
    isOk (acceptRequest db requestId driverId vehicleId now).2 = true
    ∧ (acceptRequest db requestId driverId vehicleId now).1.trips.length
      = db.trips.length + 1
    ∧ (acceptRequest (expireStaleRequests db now) requestId d2 v2 now2).2
      = Except.error DispatchError.requestNotAvailable := by
  refine ⟨acceptRequest_isOk db requestId driverId vehicleId now req rp h1 h2,
    acceptRequest_trips_length db requestId driverId vehicleId now req h1, ?_⟩
  have hnone : findRequest (expireStaleRequests db now) requestId = none := by
    unfold findRequest expireStaleRequests
    dsimp only
    rw [List.find?_eq_none]
    intro r hr
    have hmem := List.mem_filter.mp hr
    have hkeep := hmem.2
    simp only [decide_eq_true_eq]
    intro hcontra
    have hprops := hall r hmem.1 hcontra.1
    rw [Bool.not_eq_true', Bool.and_eq_false_iff] at hkeep
    rcases hkeep with hk | hk
    · exact absurd (decide_eq_true_eq.mpr hprops.1) (by rw [hk]; exact Bool.false_ne_true)
    · exact absurd (decide_eq_true_eq.mpr hprops.2) (by rw [hk]; exact Bool.false_ne_true)
  rw [acceptRequest_not_found _ _ _ _ _ hnone]

/-- C3 witness: the amended behaviour at the concrete store. -/
theorem acceptRequest_ignores_expiry_witness :
    isOk (acceptRequest dbMain 12 4 60 1000).2 = true
    ∧ (acceptRequest dbMain 12 4 60 1000).1.trips.length = dbMain.trips.length + 1
    ∧ (acceptRequest (expireStaleRequests dbMain 1000) 12 5 61 1000).2
      = Except.error DispatchError.requestNotAvailable :=
  acceptRequest_ignores_expiry dbMain 12 4 60 1000 1000 5 61 requestExpired rider1
    rfl rfl (by decide) (by decide)

/-- C2 counterexample: the claim fails on the code as written. On a trip
already in status `completed`: `startTrip` (MarkPickedUp) succeeds and
rewrites the status to `picked_up` (the claim says it succeeds only from
`accepted` and must fail with InvalidTransition otherwise), and
`process_trip_refund` run twice reports success BOTH times, deducting the
refund amount from the fare twice - the claim says the second must fail
with InvalidTransition. No InvalidTransition outcome exists in the code. -/
theorem trip_transitions_unguarded_cex :
    ((startTrip dbTrip 5 100).trips.map (fun t => t.status) = [TripStatus.pickedUp])
    ∧ ((process_trip_refund dbTrip 5 500).2 = true)
    ∧ ((process_trip_refund dbTrip 5 500).1.trips.map (fun t => (t.status, t.actualFare))
      = [(TripStatus.refunded, some (1500 : ℚ))])
    ∧ ((process_trip_refund (process_trip_refund dbTrip 5 500).1 5 500).2 = true)
    ∧ ((process_trip_refund (process_trip_refund dbTrip 5 500).1 5 500).1.trips.map
        (fun t => (t.status, t.actualFare)) = [(TripStatus.refunded, some (1000 : ℚ))]) := by
  refine ⟨rfl, rfl, ?_, rfl, ?_⟩
  · simp only [process_trip_refund, dbTrip, tripCompleted]
    norm_num
  · simp only [process_trip_refund, dbTrip, tripCompleted]
    norm_num

/-- C2 (amended): the transition operations are unconditional UPDATEs
keyed on the trip id alone: whatever the prior status, `startTrip`
rewrites it to `picked_up` and `process_trip_refund` rewrites it to
`refunded` (deducting the amount again each time) and reports success;
no operation checks the prior state and no InvalidTransition error
exists. (The DDL `trip_status` enum does not even contain a `refunded`
label, so the refund UPDATE as written would additionally be rejected by
the store.) -/
theorem trip_transitions_unconditional
    (db : DB) (tripId now : Nat) (amount : ℚ) (t : Trip)
    (ht : t ∈ db.trips) (hid : t.id = tripId) :
    ({ t with status := TripStatus.pickedUp, pickedUpAt := some now }
      ∈ (startTrip db tripId now).trips)
    ∧ ({ t with status := TripStatus.refunded,
                actualFare := t.actualFare.map (fun f => f - amount) }
      ∈ (process_trip_refund db tripId amount).1.trips)
    ∧ (process_trip_refund db tripId amount).2 = true := by
  refine ⟨?_, ?_, rfl⟩
  · unfold startTrip
    have hm := List.mem_map_of_mem
      (f := fun tt => if tt.id = tripId then
        { tt with status := TripStatus.pickedUp, pickedUpAt := some now } else tt) ht
    simpa [hid] using hm
  · unfold process_trip_refund
    have hm := List.mem_map_of_mem
      (f := fun tt => if tt.id = tripId then
        { tt with status := TripStatus.refunded,
                  actualFare := tt.actualFare.map (fun f => f - amount) } else tt) ht
    simpa [hid] using hm

/-- C2 witness: the amended behaviour at the concrete completed trip. -/
theorem trip_transitions_unconditional_witness :
    ({ tripCompleted with status := TripStatus.pickedUp, pickedUpAt := some 100 }
      ∈ (startTrip dbTrip 5 100).trips)
    ∧ ({ tripCompleted with status := TripStatus.refunded,
                            actualFare := tripCompleted.actualFare.map (fun f => f - 500) }
      ∈ (process_trip_refund dbTrip 5 500).1.trips)
    ∧ (process_trip_refund dbTrip 5 500).2 = true :=
  trip_transitions_unconditional dbTrip 5 100 500 tripCompleted
    (by exact List.mem_singleton_self _) rfl

/-- C4 (code bug): the repository's own eligibility helper
`is_subscription_active` treats a rider on an unexpired trial as active
(exactly the predicate of the claim), yet the inline check of
`requestTrip` tests `subscription_status === 'active'` only, so the same
trial rider's request is rejected with the subscription-required error.
The two pieces of the same source contradict each other; the claim matches
the helper, and `requestTrip` is the slip. -/
theorem requestTrip_rejects_trial_rider_bug :
    is_subscription_active dbTrial 502 UserRole.rider 1000 = true
    ∧ (requestTrip (fun _ _ => 2) defaultConfig dbTrial 2
        { lat := 0, lon := 0 } "A" { lat := 1, lon := 1 } "B" 1000).2
      = Except.error DispatchError.subscriptionRequired :=
  ⟨rfl, rfl⟩

/-- C5 counterexample: the claim fails on the code as written. The driver
of `dbExpiredSub` passes every column `find_nearby_drivers` tests but has
`subscription_end_date = 0`, lapsed at every positive time (the
repository's own `is_subscription_active` rejects the driver at time
1000); the claim says such a driver never appears in the result, yet the
query returns the driver - its WHERE clause never looks at the end date. -/
theorem find_nearby_drivers_expired_subscription_cex :
    ((find_nearby_drivers (fun _ _ => 0) dbExpiredSub 0 0 5).map (fun p => p.1.id) = [7])
    ∧ driverExpiredSub.subscriptionEndDate = 0
    ∧ is_subscription_active dbExpiredSub 507 UserRole.driver 1000 = false :=
  ⟨rfl, rfl, rfl⟩

/-- C5 (amended): every driver returned by `find_nearby_drivers` satisfies
exactly the conjuncts of the WHERE clause - online, available, approved,
subscription status in {active, trial}, and within the radius (with the
reported distance being the distance to the query point); the
subscription-end-date conjunct of the claim is not part of the query, so a
driver with a lapsed end date but a stale 'active'/'trial' status can
appear. -/
theorem find_nearby_drivers_filter_sound
    (d : Point → Point → ℚ) (db : DB) (userLatitude userLongitude radiusKm : ℚ)
    (p : DriverProfile × ℚ)
    (hp : p ∈ find_nearby_drivers d db userLatitude userLongitude radiusKm) :
    p.1.isOnline = true ∧ p.1.isAvailable = true
    ∧ p.1.verificationStatus = VerificationStatus.approved
    ∧ (p.1.subscriptionStatus = SubscriptionStatus.active
        ∨ p.1.subscriptionStatus = SubscriptionStatus.trial)
    ∧ p.2 ≤ radiusKm
    ∧ p.2 = d p.1.currentLocation { lat := userLatitude, lon := userLongitude } := by
  unfold find_nearby_drivers at hp
  have hp1 := List.mem_of_mem_take hp
  rw [(List.perm_insertionSort distLE _).mem_iff] at hp1
  obtain ⟨dp, hdp, hsome⟩ := List.mem_filterMap.mp hp1
  dsimp only at hsome
  split at hsome
  case isTrue hcond =>
    cases hsome
    have hc := of_decide_eq_true hcond
    exact ⟨hc.1, hc.2.1, hc.2.2.1, hc.2.2.2.1, hc.2.2.2.2, rfl⟩
  case isFalse _ => exact absurd hsome (by simp)

/-- C5 witness: the soundness conjuncts at the concrete returned driver. -/
theorem find_nearby_drivers_filter_sound_witness :
    ((driverExpiredSub, (0 : ℚ)) ∈ find_nearby_drivers (fun _ _ => 0) dbExpiredSub 0 0 5)
    ∧ (driverExpiredSub.isOnline = true ∧ driverExpiredSub.isAvailable = true
      ∧ driverExpiredSub.verificationStatus = VerificationStatus.approved
      ∧ (driverExpiredSub.subscriptionStatus = SubscriptionStatus.active
          ∨ driverExpiredSub.subscriptionStatus = SubscriptionStatus.trial)
      ∧ (0 : ℚ) ≤ 5
      ∧ (0 : ℚ) = (fun (_ _ : Point) => (0 : ℚ)) driverExpiredSub.currentLocation
          { lat := 0, lon := 0 }) := by
  have hmem : (driverExpiredSub, (0 : ℚ))
      ∈ find_nearby_drivers (fun _ _ => 0) dbExpiredSub 0 0 5 := by decide
  exact ⟨hmem, find_nearby_drivers_filter_sound _ _ _ _ _ _ hmem⟩

/-- C10: the nearby-drivers query returns at most 20 rows for every store,
query point and radius: the LIMIT 20 is fixed inside the SQL function
(whose parameters are only the query point and the radius - no limit
parameter exists for callers to pass). -/
theorem find_nearby_drivers_limit_20
    (d : Point → Point → ℚ) (db : DB) (userLatitude userLongitude radiusKm : ℚ) :
    (find_nearby_drivers d db userLatitude userLongitude radiusKm).length ≤ 20 := by
  unfold find_nearby_drivers
  exact List.length_take_le _ _

/-- C6: for every configuration, distance, trip type and time of day
(t < 24:00), the estimate is `baseFare + perKmRate * distanceKm`, and the
night flag holds exactly when the time lies in the configured window
`[start,end)`, wrapping midnight as `[start,24:00) ∪ [0,end)` when
start > end (the spec reading `specNightWindow`); with the default
configuration (base 500, rate 150, window 18:00-06:00), a 10 km estimate
at 02:00 is fare 2000 with the night flag set, and at 12:00 the flag is
clear. The fare formula is spec-modelled (`calculateFare` has no body
under src); the night test is the src SQL `is_night_mode`. -/
theorem Estimate_fare_and_night_window
    (cfg : SystemConfig) (distanceKm : ℚ) (tt : TripType) (t : Nat) (ht : t < 24 * 60) :
    (Estimate cfg distanceKm tt t).1 = cfg.baseFare + cfg.perKmRate * distanceKm
    ∧ ((Estimate cfg distanceKm tt t).2 = true ↔ specNightWindow cfg.nightStart cfg.nightEnd t)
    ∧ (Estimate defaultConfig 10 TripType.shortDrop 120).1 = 2000
    ∧ (Estimate defaultConfig 10 TripType.shortDrop 120).2 = true
    ∧ (Estimate defaultConfig 10 TripType.shortDrop 720).2 = false := by
  refine ⟨rfl, ?_, by norm_num [Estimate, calculateFare, defaultConfig], by decide, by decide⟩
  unfold Estimate is_night_mode specNightWindow
  dsimp only
  split
  case isTrue h =>
    simp only [Bool.or_eq_true, decide_eq_true_eq]
    omega
  case isFalse h =>
    simp only [Bool.and_eq_true, decide_eq_true_eq]
    omega

/-- C6 witness: the general clauses applied at the concrete night-time
call of the claim. -/
theorem Estimate_fare_and_night_window_witness :
    (Estimate defaultConfig 10 TripType.shortDrop 120).1
      = defaultConfig.baseFare + defaultConfig.perKmRate * 10
    ∧ ((Estimate defaultConfig 10 TripType.shortDrop 120).2 = true
      ↔ specNightWindow defaultConfig.nightStart defaultConfig.nightEnd 120) :=
  ⟨(Estimate_fare_and_night_window defaultConfig 10 TripType.shortDrop 120 (by decide)).1,
   (Estimate_fare_and_night_window defaultConfig 10 TripType.shortDrop 120 (by decide)).2.1⟩

/-- C7 counterexample: the claim fails on the code as written. The two
drivers of `dbTie` are at the same point (distance 0 from the query
point), the first-listed having the LOWER rating; the claim says ties are
broken by highest rating (then id), so the higher-rated driver must come
first, but `find_nearby_drivers` (whose ORDER BY has the single key
distance_km) returns the lower-rated driver first. -/
theorem find_nearby_drivers_tie_order_cex :
    ((find_nearby_drivers (fun _ _ => 0) dbTie 0 0 5).map (fun p => (p.1.id, p.2))
      = [(1, 0), (2, 0)])
    ∧ driverLowRating.ratingAverage < driverHighRating.ratingAverage :=
  ⟨rfl, by decide⟩

/-- C7 (amended): the result of `find_nearby_drivers` is sorted ascending
by distance - drivers at distances [1.2, 0.5, 3.0] km come back ordered
[0.5, 1.2, 3.0] - but the ORDER BY has no further key, so the order of
equidistant drivers is not constrained by rating or id. -/
theorem find_nearby_drivers_sorted_by_distance :
    (∀ (d : Point → Point → ℚ) (db : DB) (userLatitude userLongitude radiusKm : ℚ),
      List.Sorted distLE (find_nearby_drivers d db userLatitude userLongitude radiusKm))
    ∧ ((find_nearby_drivers dGeoExample dbGeoExample 0 0 5).map (fun p => p.2)
      = [1/2, 6/5, 3]) := by
  constructor
  · intro d db userLatitude userLongitude radiusKm
    unfold find_nearby_drivers
    exact List.Pairwise.sublist (List.take_sublist _ _)
      (List.sorted_insertionSort distLE _)
  · norm_num [find_nearby_drivers, dbGeoExample, dGeoExample, driverGeo,
      List.insertionSort, List.orderedInsert, distLE, List.filterMap_cons, List.take]

/-- C8 counterexample: the claim fails on the code as written. Two
position reports for driver 3 arrive in order: first the sample taken at
time T1 (point (5,5)), then a stale sample taken at the EARLIER time
T2 < T1 (point (9,9)). `recordDriverLocation` takes no sample timestamp
and compares nothing against the stored `location_updated_at`: it
overwrites unconditionally, so the driver's position ends at the stale
(9,9), not at the T1 value (5,5) the claim requires. -/
theorem recordDriverLocation_arrival_order_cex :
    ((recordDriverLocation (recordDriverLocation dbLoc 77 3 5 5 40 1000) 77 3 9 9 40 1001).drivers.map
      (fun dd => dd.currentLocation) = [{ lat := 9, lon := 9 }])
    ∧ ({ lat := 9, lon := 9 } : Point) ≠ { lat := 5, lon := 5 } :=
  ⟨rfl, by decide⟩

/-- C8 (amended): `recordDriverLocation` is last-ARRIVAL-wins: every call
unconditionally overwrites the driver's current location and stamps
`location_updated_at` with the arrival time; no out-of-order sample is
ever discarded (the function does not even receive a sample timestamp),
and each call appends exactly one history row stamped with arrival time. -/
theorem recordDriverLocation_unconditional_overwrite
    (db : DB) (tripId driverId : Nat) (latitude longitude speed : ℚ) (now : Nat)
    (dd : DriverProfile) (hdd : dd ∈ db.drivers) (hid : dd.id = driverId) :
    ({ dd with currentLocation := { lat := latitude, lon := longitude },
               locationUpdatedAt := now }
      ∈ (recordDriverLocation db tripId driverId latitude longitude speed now).drivers)
    ∧ (recordDriverLocation db tripId driverId latitude longitude speed now).locationHistory
      = db.locationHistory ++
        [{ tripId := tripId, driverId := driverId, latitude := latitude,
           longitude := longitude, speedKmh := speed, recordedAt := now }] := by
  refine ⟨?_, rfl⟩
  unfold recordDriverLocation
  dsimp only
  have hm := List.mem_map_of_mem
    (f := fun x => if x.id = driverId then
      { x with currentLocation := { lat := latitude, lon := longitude },
               locationUpdatedAt := now } else x) hdd
  simpa [hid] using hm

/-- C8 witness: the unconditional overwrite at the concrete store. -/
theorem recordDriverLocation_unconditional_overwrite_witness :
    ({ driverLoc with currentLocation := { lat := 5, lon := 5 },
                      locationUpdatedAt := 1000 }
      ∈ (recordDriverLocation dbLoc 77 3 5 5 40 1000).drivers)
    ∧ (recordDriverLocation dbLoc 77 3 5 5 40 1000).locationHistory
      = dbLoc.locationHistory ++
        [{ tripId := 77, driverId := 3, latitude := 5, longitude := 5,
           speedKmh := 40, recordedAt := 1000 }] :=
  recordDriverLocation_unconditional_overwrite dbLoc 77 3 5 5 40 1000 driverLoc
    (by exact List.mem_singleton_self _) rfl

/-- C9 counterexample: the claim fails on the code as written. From
`dbMain`, driver 4 accepts request 10 (trip 1) and - nothing in
`acceptRequest` checks that the driver is still available - also accepts
request 11 (trip 2). Completing trip 1 sets the driver available again
unconditionally. The resulting reachable state has trip 2 still in the
non-terminal status `accepted`, assigned to driver 4, while driver 4 has
`is_available = true` - the claimed invariant does not hold at every
reachable state. -/
theorem driver_availability_invariant_cex :
    Reachable dbMain dbAfterComplete
    ∧ (∃ t ∈ dbAfterComplete.trips, t.status = TripStatus.accepted
      ∧ ∃ dp ∈ dbAfterComplete.drivers, dp.id = t.driverId ∧ dp.isAvailable = true) := by
  constructor
  · exact Reachable.complete 1 3 950 1200
      (Reachable.accept 11 4 61 1001 (Reachable.accept 10 4 60 1000 Reachable.init))
  · decide

/-- C9 (amended): the availability writes themselves do happen - a
successful `acceptRequest` leaves the accepting driver's rows with
`is_available = false`, and `completeTrip` on an existing trip (and the
spec-modelled `cancelTrip` on a cancellable one) leave the trip's driver's
rows with `is_available = true` immediately afterwards. The at-every-
reachable-state invariant fails only because `acceptRequest` never checks
availability, so one driver can hold several live trips (see the
counterexample). -/
theorem driver_availability_after_ops :
    (∀ (db : DB) (requestId driverId vehicleId now : Nat) (db' : DB) (trip : Trip),
      acceptRequest db requestId driverId vehicleId now = (db', Except.ok trip) →
      ∀ dp ∈ db'.drivers, dp.id = trip.driverId → dp.isAvailable = false)
    ∧ (∀ (db : DB) (tripId : Nat) (a f : ℚ) (now : Nat) (t : Trip),
      findTrip db tripId = some t →
      ∀ dp ∈ (completeTrip db tripId a f now).1.drivers,
        dp.id = t.driverId → dp.isAvailable = true)
    ∧ (∀ (db : DB) (tripId : Nat) (reason : String) (now : Nat) (t : Trip),
      findTrip db tripId = some t →
      (t.status = TripStatus.accepted ∨ t.status = TripStatus.pickedUp) →
      ∀ dp ∈ (cancelTrip db tripId reason now).1.drivers,
        dp.id = t.driverId → dp.isAvailable = true) := by
  refine ⟨?_, ?_, ?_⟩
  · intro db requestId driverId vehicleId now db' trip h dp hdp hdpid
    unfold acceptRequest at h
    split at h
    case h_1 => exact absurd (congrArg Prod.snd h) (by simp)
    case h_2 req hreq =>
      dsimp only at h
      split at h
      case h_1 => exact absurd (congrArg Prod.snd h) (by simp)
      case h_2 rp hrp =>
        have hdb : db' = _ := (congrArg Prod.fst h).symm
        have htrip : trip = mkTripFromRequest req driverId vehicleId db.nextTripId now := by
          have := congrArg Prod.snd h
          simpa using this.symm
        subst hdb
        dsimp only at hdp
        obtain ⟨x, hx, rfl⟩ := List.mem_map.mp hdp
        have hdid : trip.driverId = driverId := by rw [htrip]; rfl
        by_cases hxid : x.id = driverId
        · simp [hxid]
        · rw [if_neg hxid] at hdpid ⊢
          exact absurd (hdpid.trans hdid) hxid
  · intro db tripId a f now t h dp hdp hdpid
    unfold completeTrip at hdp
    rw [h] at hdp
    dsimp only at hdp
    obtain ⟨y, hy, rfl⟩ := List.mem_map.mp hdp
    by_cases hyid : y.id = t.driverId
    · simp [hyid]
    · rw [if_neg hyid] at hdpid ⊢
      exact absurd hdpid hyid
  · intro db tripId reason now t h hst dp hdp hdpid
    unfold cancelTrip at hdp
    rw [h] at hdp
    dsimp only at hdp
    rw [if_pos hst] at hdp
    dsimp only at hdp
    obtain ⟨y, hy, rfl⟩ := List.mem_map.mp hdp
    by_cases hyid : y.id = t.driverId
    · simp [hyid]
    · rw [if_neg hyid] at hdpid ⊢
      exact absurd hdpid hyid

/-- C9 witness: the immediately-after clauses at the concrete stores. -/
theorem driver_availability_after_ops_witness :
    (∀ dp ∈ dbAfterFirstAccept.drivers,
      dp.id = (mkTripFromRequest request10 4 60 1 1000).driverId → dp.isAvailable = false)
    ∧ (∀ dp ∈ dbAfterComplete.drivers,
      dp.id = (mkTripFromRequest request10 4 60 1 1000).driverId → dp.isAvailable = true) := by
  constructor
  · exact driver_availability_after_ops.1 dbMain 10 4 60 1000 dbAfterFirstAccept
      (mkTripFromRequest request10 4 60 1 1000) rfl
  · exact driver_availability_after_ops.2.1 dbAfterSecondAccept 1 3 950 1200
      (mkTripFromRequest request10 4 60 1 1000) (by decide)
